import Mathlib

/-!
Shallow embedding of the rawspeed CR2 decompressor
(`src/librawspeed/decompressors/Cr2DecompressorImpl.h`) and of the pixel-buffer
helpers (`RawImageData`, `RawImageDataU16::setWithLookUp`, `RawImageCurveGuard`).

Machine integers are modelled as `Nat`/`Int` with explicit reduction modulo
`2 ^ 16` (for `uint16_t` stores) or `2 ^ 32` (for `uint32_t` arithmetic) where
the C++ types force it.  The Huffman bit stream is abstracted as the sequence
of signed differences it decodes to: each call of
`HuffmanTable::decodeDifference(bs)` consumes the next element of `diffs`.
Fallible code returns `Except`; the decode loops carry explicit fuel (the C++
loops can fail to make progress only on inputs that trip `assert`s / UB, in
which case the model reports a dedicated `fuel` error).
-/

/-- Slice plan of a CR2 image.  Modelled from the spec: the class `Cr2Slicing`
lives in `Cr2Decompressor.h`, which is not under `src/`; the spec describes it
as `{num, width, last_width}` with slice widths `[width]·(num−1) + [last_width]`. -/
structure Cr2Slicing where
  numSlices : Nat
  sliceWidth : Nat
  lastSliceWidth : Nat
deriving DecidableEq

/-- Modelled from the spec: width of slice `sliceId`; every slice but the last
has width `sliceWidth`, the last one has width `lastSliceWidth`. -/
def Cr2Slicing.widthOfSlice (s : Cr2Slicing) (sliceId : Nat) : Nat :=
  if sliceId + 1 = s.numSlices then s.lastSliceWidth else s.sliceWidth

/-- Modelled from the spec: total width of all slices,
`(num − 1) · width + last_width`. -/
def Cr2Slicing.totalWidth (s : Cr2Slicing) : Nat :=
  (s.numSlices - 1) * s.sliceWidth + s.lastSliceWidth

/-- The inputs of one `Cr2Decompressor<HT>::decompressN_X_Y<N_COMP,X_S_F,Y_S_F>`
instantiation: the template arguments, the relevant fields of the `RawImage`
buffer (`dim`, the pitch of the uncropped `Array2DRef` in `uint16_t` units),
the coded `frame` dimensions, the slicing, the initial predictors from the
per-component recipes, and the abstracted difference stream. -/
structure Cr2Ctx where
  nComp : Nat
  xsf : Nat
  ysf : Nat
  dimX : Nat
  dimY : Nat
  pitchT : Nat
  frameX : Nat
  frameY : Nat
  slicing : Cr2Slicing
  initPreds : List Nat
  diffs : Nat → Int

/-- `constexpr bool subSampled = X_S_F != 1 || Y_S_F != 1;` -/
def Cr2Ctx.subSampled (ctx : Cr2Ctx) : Bool :=
  ctx.xsf != 1 || ctx.ysf != 1

/-- `constexpr int sliceColStep = N_COMP * X_S_F;` -/
def Cr2Ctx.sliceColStep (ctx : Cr2Ctx) : Nat := ctx.nComp * ctx.xsf

/-- `constexpr int frameRowStep = Y_S_F;` -/
def Cr2Ctx.frameRowStep (ctx : Cr2Ctx) : Nat := ctx.ysf

/-- `constexpr int pixelsPerGroup = X_S_F * Y_S_F;` -/
def Cr2Ctx.pixelsPerGroup (ctx : Cr2Ctx) : Nat := ctx.xsf * ctx.ysf

/-- `constexpr int groupSize = !subSampled ? N_COMP : 2 + pixelsPerGroup;` -/
def Cr2Ctx.groupSize (ctx : Cr2Ctx) : Nat :=
  if ctx.subSampled then 2 + ctx.pixelsPerGroup else ctx.nComp

/-- `const int cpp = !subSampled ? 1 : 3;` -/
def Cr2Ctx.cpp (ctx : Cr2Ctx) : Nat := if ctx.subSampled then 3 else 1

/-- `const int colsPerGroup = !subSampled ? cpp : groupSize;` -/
def Cr2Ctx.colsPerGroup (ctx : Cr2Ctx) : Nat :=
  if ctx.subSampled then ctx.groupSize else ctx.cpp

/-- `realDim.x`: `dim.x` (divided by `groupSize` when subsampled) times `X_S_F`. -/
def Cr2Ctx.realDimX (ctx : Cr2Ctx) : Nat :=
  (if ctx.subSampled then ctx.dimX / ctx.groupSize else ctx.dimX) * ctx.xsf

/-- `realDim.y = dim.y * Y_S_F`. -/
def Cr2Ctx.realDimY (ctx : Cr2Ctx) : Nat := ctx.dimY * ctx.ysf

/-- State of the decoding loops: the flat output raster (indexed linearly, the
sample `out(row, col)` lives at `row * pitchT + col`), the predictor array
(as a function, only indices `< nComp` are meaningful), the linear index the
`predNext` pointer points at, `globalFrameCol`, and the number of differences
consumed from the bit stream so far. -/
structure DecState where
  out : Nat → Nat
  pred : Nat → Nat
  predNext : Nat
  globalFrameCol : Nat
  pos : Nat

/-- `uint16_t` store of `pred + diff`: the `int` sum converted to `uint16_t`,
i.e. reduced modulo `2 ^ 16` into `[0, 2 ^ 16)`. -/
def u16add (v : Nat) (d : Int) : Nat := (((v : Int) + d) % 65536).toNat

/-- `int c = p < pixelsPerGroup ? 0 : p - pixelsPerGroup + 1;` -/
def sampleComp (ctx : Cr2Ctx) (p : Nat) : Nat :=
  if p < ctx.pixelsPerGroup then 0 else p - ctx.pixelsPerGroup + 1

/-- One iteration of the innermost loop body
`out(row, col + p) = pred[c] += ht[c].decodeDifference(bs);`. -/
def decodeSampleStep (ctx : Cr2Ctx) (row col : Nat) (s : DecState) (p : Nat) :
    DecState :=
  let c := sampleComp ctx p
  let v := u16add (s.pred c) (ctx.diffs s.pos)
  { out := fun i => if i = row * ctx.pitchT + (col + p) then v else s.out i
    pred := fun c' => if c' = c then v else s.pred c'
    predNext := s.predNext
    globalFrameCol := s.globalFrameCol
    pos := s.pos + 1 }

/-- `for (int p = 0; p < groupSize; ++p) { ... }`: decode one group of
`groupSize` samples written contiguously at `out(row, col + p)`. -/
def decodeGroup (ctx : Cr2Ctx) (row col : Nat) (s : DecState) : DecState :=
  (List.range ctx.groupSize).foldl (decodeSampleStep ctx row col) s

/-- The predictor-wrap block guarded by `if (globalFrameCol == frame.x)`:
reload `pred[c] = predNext[c == 0 ? c : groupSize - (N_COMP - c)]`, re-snapshot
`predNext = &out(row, col)` and reset `globalFrameCol = 0`. -/
def wrapStep (ctx : Cr2Ctx) (row col : Nat) (s : DecState) : DecState :=
  if s.globalFrameCol = ctx.frameX then
    { s with
      pred := fun c =>
        if c < ctx.nComp then
          s.out (s.predNext +
            (if c = 0 then c else ctx.groupSize - (ctx.nComp - c)))
        else s.pred c
      predNext := row * ctx.pitchT + col
      globalFrameCol := 0 }
  else s

/-- `k` iterations of the group-decoding `for` loop: each iteration decodes a
group at the current `col`, then advances `col += groupSize` and
`globalFrameCol += X_S_F`.  Returns the final `col` and state. -/
def groupRun (ctx : Cr2Ctx) (row : Nat) : Nat → Nat → DecState → Nat × DecState
  | 0, col, s => (col, s)
  | k + 1, col, s =>
    let s' := decodeGroup ctx row col s
    groupRun ctx row k (col + ctx.groupSize)
      { s' with globalFrameCol := s'.globalFrameCol + ctx.xsf }

/-- The `for (int sliceCol = 0; sliceCol < sliceWidth;)` loop.  Each pass
applies the predictor-wrap block, computes
`sliceColsRemaining = min(sliceWidth - sliceCol, sliceColStep * ((frame.x - globalFrameCol) / X_S_F))`
(C++ `int` division truncates toward zero, hence `Int.tdiv`), and runs the
group loop for `⌈sliceColsRemaining / sliceColStep⌉` iterations.  A pass that
makes no progress (possible only when the C++ `assert`s would fire) spins the
fuel down to `none`. -/
def sliceColLoop (ctx : Cr2Ctx) (sWidth row : Nat) :
    Nat → Nat → Nat → DecState → Option (Nat × DecState)
  | 0, _, _, _ => none
  | fuel + 1, sliceCol, col, s =>
    if sliceCol < sWidth then
      let s1 := wrapStep ctx row col s
      let rem1 : Int := (ctx.sliceColStep : Int) *
        (Int.tdiv ((ctx.frameX : Int) - (s1.globalFrameCol : Int)) (ctx.xsf : Int))
      let rem2 : Int := (sWidth : Int) - (sliceCol : Int)
      let rem : Int := min rem2 rem1
      let k : Nat :=
        if rem ≤ 0 ∨ ctx.sliceColStep = 0 then 0
        else (rem.toNat + ctx.sliceColStep - 1) / ctx.sliceColStep
      if k = 0 then
        sliceColLoop ctx sWidth row fuel sliceCol col s1
      else
        let r := groupRun ctx row k col s1
        sliceColLoop ctx sWidth row fuel (sliceCol + k * ctx.sliceColStep) r.1 r.2
    else some (col, s)

/-- Errors raised by the constructor checks and the decode loops
(`ThrowRDE` sites), plus `fuel` for loops that make no progress. -/
inductive Cr2Error where
  | sliceTooLong
  | sliceWidthNotGroupMultiple
  | sliceWidthNotCppMultiple
  | geometry
  | badCombination
  | insufficientSlices
  | unreachableFormat
  | fuel
deriving DecidableEq

/-- The `for (int sliceFrameRow = 0; sliceFrameRow < frame.y; ...)` loop of one
slice.  Returns the final `globalFrameRow` together with the state; the
`break` on `col >= realDim.x` exits normally without bumping
`globalFrameRow`. -/
def sliceFrameRowLoop (ctx : Cr2Ctx) (sliceId sWidth : Nat) :
    Nat → Nat → Nat → DecState → Except Cr2Error (Nat × DecState)
  | 0, _, _, _ => .error .fuel
  | fuel + 1, sliceFrameRow, gRow, s =>
    if sliceFrameRow < ctx.frameY then
      let row0 := gRow % ctx.realDimY
      let col0 := gRow / ctx.realDimY * ctx.slicing.widthOfSlice 0 / ctx.cpp
      if ctx.realDimX ≤ col0 then .ok (gRow, s)
      else
        let pixelsPerSliceRow := sWidth / ctx.cpp
        if ctx.realDimX < col0 + pixelsPerSliceRow then .error .badCombination
        else if sliceId + 1 = ctx.slicing.numSlices ∧
            col0 + pixelsPerSliceRow ≠ ctx.realDimX then .error .insufficientSlices
        else
          let row := row0 / ctx.ysf
          let col := col0 / ctx.xsf * ctx.colsPerGroup
          match sliceColLoop ctx sWidth row (sWidth + 1) 0 col s with
          | none => .error .fuel
          | some (_, s') =>
            sliceFrameRowLoop ctx sliceId sWidth fuel
              (sliceFrameRow + ctx.frameRowStep) (gRow + ctx.frameRowStep) s'
    else .ok (gRow, s)

/-- The outer `for (auto sliceId = 0; sliceId < slicing.numSlices; sliceId++)`
loop, by recursion on the number of slices remaining. -/
def sliceLoop (ctx : Cr2Ctx) :
    Nat → Nat → Nat → DecState → Except Cr2Error DecState
  | 0, _, _, s => .ok s
  | remaining + 1, sliceId, gRow, s =>
    match sliceFrameRowLoop ctx sliceId (ctx.slicing.widthOfSlice sliceId)
        (ctx.frameY + 1) 0 gRow s with
    | .error e => .error e
    | .ok (gRow', s') => sliceLoop ctx remaining (sliceId + 1) gRow' s'

/-- The per-width checks of the `for (const auto& width : {sliceWidth,
lastSliceWidth})` loop. -/
def widthCheck (ctx : Cr2Ctx) (width : Nat) : Except Cr2Error Unit :=
  if ctx.realDimX < width then .error .sliceTooLong
  else if width % ctx.sliceColStep ≠ 0 then .error .sliceWidthNotGroupMultiple
  else if width % ctx.cpp ≠ 0 then .error .sliceWidthNotCppMultiple
  else .ok ()

/-- `if (iPoint2D::area_type(frame.y) * slicing.totalWidth() < cpp * realDim.area())`. -/
def geomCheck (ctx : Cr2Ctx) : Except Cr2Error Unit :=
  if ctx.frameY * ctx.slicing.totalWidth < ctx.cpp * (ctx.realDimX * ctx.realDimY)
  then .error .geometry
  else .ok ()

/-- Initial decode state: a fresh raster, `pred` from `getInitialPreds`
(the `initPred` of each per-component recipe), `predNext = &out(0, 0)`,
`globalFrameCol = 0`, nothing consumed from the bit stream. -/
def initState (ctx : Cr2Ctx) : DecState :=
  { out := fun _ => 0
    pred := fun c => ctx.initPreds.getD c 0
    predNext := 0
    globalFrameCol := 0
    pos := 0 }

/-- `Cr2Decompressor<HT>::decompressN_X_Y<N_COMP, X_S_F, Y_S_F>()`. -/
def decompressN_X_Y (ctx : Cr2Ctx) : Except Cr2Error DecState :=
  match widthCheck ctx ctx.slicing.sliceWidth with
  | .error e => .error e
  | .ok _ =>
    match widthCheck ctx ctx.slicing.lastSliceWidth with
    | .error e => .error e
    | .ok _ =>
      match geomCheck ctx with
      | .error e => .error e
      | .ok _ => sliceLoop ctx ctx.slicing.numSlices 0 0 (initState ctx)

/-- The non-template inputs of a `Cr2Decompressor` together with the format
tuple, used by the `decompress()` dispatcher. -/
structure Cr2Base where
  format : Nat × Nat × Nat
  dimX : Nat
  dimY : Nat
  pitchT : Nat
  frameX : Nat
  frameY : Nat
  slicing : Cr2Slicing
  initPreds : List Nat
  diffs : Nat → Int

/-- Instantiate the decode context at template arguments `(n, x, y)`. -/
def Cr2Base.ctx (b : Cr2Base) (n x y : Nat) : Cr2Ctx :=
  { nComp := n, xsf := x, ysf := y, dimX := b.dimX, dimY := b.dimY,
    pitchT := b.pitchT, frameX := b.frameX, frameY := b.frameY,
    slicing := b.slicing, initPreds := b.initPreds, diffs := b.diffs }

/-- `Cr2Decompressor<HT>::decompress()`: dispatch on the format tuple to the
four supported `decompressN_X_Y` instantiations. -/
def decompress (b : Cr2Base) : Except Cr2Error DecState :=
  if b.format = (3, 2, 2) then decompressN_X_Y (b.ctx 3 2 2)
  else if b.format = (3, 2, 1) then decompressN_X_Y (b.ctx 3 2 1)
  else if b.format = (2, 1, 1) then decompressN_X_Y (b.ctx 2 1 1)
  else if b.format = (4, 1, 1) then decompressN_X_Y (b.ctx 4 1 1)
  else .error .unreachableFormat

/-- Predictor evolution inside one group, as a recurrence: `groupPred ctx pos0
pred0 k` is the predictor function after the first `k` positions of the group
have been decoded, starting from predictors `pred0` with the next difference at
stream position `pos0`. -/
def groupPred (ctx : Cr2Ctx) (pos0 : Nat) (pred0 : Nat → Nat) : Nat → Nat → Nat
  | 0 => pred0
  | k + 1 => fun c' =>
    if c' = sampleComp ctx k then
      u16add (groupPred ctx pos0 pred0 k (sampleComp ctx k)) (ctx.diffs (pos0 + k))
    else groupPred ctx pos0 pred0 k c'

/-- `enum RawImageType { TYPE_USHORT16, TYPE_FLOAT32 }` (named
`RawImageType::UINT16` in the decompressor sources). -/
inductive RawImageType where
  | TYPE_USHORT16
  | TYPE_FLOAT32
deriving DecidableEq

/-- The fields of `RawImageData` that the `Cr2Decompressor` constructor
inspects.  Dimensions are sizes of an allocated buffer, modelled as `Nat`. -/
structure RawImageModel where
  dataType : RawImageType
  cpp : Nat
  bpp : Nat
  dimX : Nat
  dimY : Nat
  isCFA : Bool

/-- `Cr2Decompressor::PerComponentRecipe`: the Huffman table (abstracted to its
`isFullDecode()` bit, the only thing the constructor checks) and the initial
predictor. -/
structure PerComponentRecipe where
  fullDecode : Bool
  initPred : Nat

/-- The distinct `ThrowRDE` sites of the `Cr2Decompressor` constructor. -/
inductive Cr2ConsError where
  | dataType
  | cppBpp
  | dims
  | sliceWidth
  | subsampled
  | format
  | recCount
  | notFullDecode
deriving DecidableEq

/-- `isSubSampled = std::get<1>(format) != 1 || std::get<2>(format) != 1`. -/
def subSampledFormat (format : Nat × Nat × Nat) : Bool :=
  format.2.1 != 1 || format.2.2 != 1

/-- The check sequence of the `Cr2Decompressor` constructor, in source order;
the first failing check determines the error. -/
def Cr2Decompressor.construct (mRaw : RawImageModel) (format : Nat × Nat × Nat)
    (slicing : Cr2Slicing) (rec : List PerComponentRecipe) :
    Except Cr2ConsError Unit :=
  if mRaw.dataType ≠ RawImageType.TYPE_USHORT16 then .error .dataType
  else if mRaw.cpp ≠ 1 ∨ mRaw.bpp ≠ 2 then .error .cppBpp
  else if mRaw.dimX = 0 ∨ mRaw.dimY = 0 ∨ 19440 < mRaw.dimX ∨ 5920 < mRaw.dimY
    then .error .dims
  else if ¬ (List.range slicing.numSlices).all
      (fun sliceId => 0 < slicing.widthOfSlice sliceId) then .error .sliceWidth
  else if subSampledFormat format = mRaw.isCFA then .error .subsampled
  else if ¬ (format = (3, 2, 2) ∨ format = (3, 2, 1) ∨ format = (2, 1, 1) ∨
      format = (4, 1, 1)) then .error .format
  else if rec.length ≠ format.1 then .error .recCount
  else if ¬ rec.all (fun recip => recip.fullDecode) then .error .notFullDecode
  else .ok ()

/-- `TableLookUp`: the flat `uint16_t` vector holding the lookup data and the
dither flag.  With dither, entry `value` occupies two consecutive `uint16_t`s
that `setWithLookUp` reloads as one little-endian `uint32_t`. -/
structure TableLookUp where
  tables : List Nat
  dither : Bool

/-- `RawImageDataU16::setWithLookUp(value, dst, random)`: returns the
`uint16_t` written to `*dst` and the updated random state.  The `uint32_t`
intermediates are exact (no overflow is possible, see `c8`); the final store
truncates to `uint16_t`. -/
def RawImageDataU16.setWithLookUp (table : Option TableLookUp) (value r : Nat) :
    Nat × Nat :=
  match table with
  | none => (value, r)
  | some t =>
    if t.dither then
      let lookup := t.tables.getD (2 * value) 0 + 65536 * t.tables.getD (2 * value + 1) 0
      let base := lookup &&& 65535
      let delta := lookup >>> 16
      let pix := (base + ((delta * (r &&& 2047) + 1024) >>> 12)) % 4294967296
      (pix % 65536, (15700 * (r &&& 65535) + (r >>> 16)) % 4294967296)
    else (t.tables.getD value 0, r)

/-- The table slot of a `RawImageData` buffer: `none` after
`setTable(nullptr)`, otherwise the installed curve and its dither flag.
`setTable(curve, dither)` stores exactly these two pieces of data. -/
abbrev TableSlot := Option (List Nat × Bool)

/-- The `RawImageCurveGuard` constructor action on the buffer's table slot:
nothing when `uncorrectedRawValues`, else `setTable(curve, true)`. -/
def RawImageCurveGuard.construct (curve : List Nat) (uncorrectedRawValues : Bool)
    (t : TableSlot) : TableSlot :=
  if uncorrectedRawValues then t else some (curve, true)

/-- The `RawImageCurveGuard` destructor action on the buffer's table slot:
`setTable(curve, false)` when `uncorrectedRawValues`, else `setTable(nullptr)`. -/
def RawImageCurveGuard.destruct (curve : List Nat) (uncorrectedRawValues : Bool)
    (_t : TableSlot) : TableSlot :=
  if uncorrectedRawValues then some (curve, false) else none

/-- C++ scope semantics of a `RawImageCurveGuard` object guarding a body: the
constructor runs, the body runs (possibly ending in error propagation), and
the destructor runs on the resulting table slot on both the normal and the
error exit path. -/
def withCurveGuard {ε α : Type} (curve : List Nat) (uncorrectedRawValues : Bool)
    (body : TableSlot → TableSlot × Except ε α) (t0 : TableSlot) :
    TableSlot × Except ε α :=
  let t1 := RawImageCurveGuard.construct curve uncorrectedRawValues t0
  let r := body t1
  (RawImageCurveGuard.destruct curve uncorrectedRawValues r.1, r.2)

/-- `Array2DRef<uint16_t>`: a flat base pointer with width, height and pitch
(in elements).  Modelled from the spec: `Array2DRef.h` is not under `src/`;
the spec fixes `pitch` as the element count between row starts, so
`(row, col)` lives at `row * pitch + col`. -/
structure Array2DRef where
  data : Nat → Nat
  width : Nat
  height : Nat
  pitchElems : Nat

/-- `Array2DRef::operator()(row, col)`. -/
def Array2DRef.get (a : Array2DRef) (row col : Nat) : Nat :=
  a.data (row * a.pitchElems + col)

/-- `CroppedArray2DRef<uint16_t>`: a base reference plus a crop window.
Modelled from the spec: `CroppedArray2DRef.h` is not under `src/`; the spec
says the cropped view offsets all indexed access by the crop offset into the
uncropped coordinate system. -/
structure CroppedArray2DRef where
  base : Array2DRef
  offsetCols : Nat
  offsetRows : Nat
  croppedWidth : Nat
  croppedHeight : Nat

/-- `CroppedArray2DRef::operator()(row, col)`: offset into the base view. -/
def CroppedArray2DRef.get (c : CroppedArray2DRef) (row col : Nat) : Nat :=
  c.base.get (c.offsetRows + row) (c.offsetCols + col)

/-- The fields of `RawImageData` that its two `Array2DRef` accessors read:
the raster (as a flat `uint16_t` sequence), `cpp`, the uncropped extent,
`pitch` in bytes, and the crop window `mOffset` / `dim`. -/
structure RawImageDataModel where
  data : Nat → Nat
  cpp : Nat
  uncroppedDimX : Nat
  uncroppedDimY : Nat
  pitchBytes : Nat
  mOffsetX : Nat
  mOffsetY : Nat
  dimX : Nat
  dimY : Nat

/-- `RawImageData::getU16DataAsUncroppedArray2DRef()`:
`{data, cpp * uncropped_dim.x, uncropped_dim.y, pitch / sizeof(uint16_t)}`. -/
def RawImageData.getU16DataAsUncroppedArray2DRef (b : RawImageDataModel) :
    Array2DRef :=
  { data := b.data, width := b.cpp * b.uncroppedDimX, height := b.uncroppedDimY,
    pitchElems := b.pitchBytes / 2 }

/-- `RawImageData::getU16DataAsCroppedArray2DRef()`:
`{uncropped, cpp * mOffset.x, mOffset.y, cpp * dim.x, dim.y}`. -/
def RawImageData.getU16DataAsCroppedArray2DRef (b : RawImageDataModel) :
    CroppedArray2DRef :=
  { base := RawImageData.getU16DataAsUncroppedArray2DRef b,
    offsetCols := b.cpp * b.mOffsetX, offsetRows := b.mOffsetY,
    croppedWidth := b.cpp * b.dimX, croppedHeight := b.dimY }

/-- Claim C1: in the CR2 decompressor's inner loop, whenever the coded frame
column wraps (`globalFrameCol == frame.x`), each component predictor `pred[c]`
(`c < N`) is reloaded from the previously snapshotted output position as
`pred[c] = predNext[c == 0 ? 0 : group_size − (N − c)]`, after which `predNext`
is re-snapshotted to the output address of the current `(row, col)` and
`globalFrameCol` is reset to `0`; the raster and the bit-stream position are
untouched by the wrap, and at the start of decoding `predNext` is snapshotted
to the output origin `&out(0, 0)`. -/
theorem c1_predictor_wrap (ctx : Cr2Ctx) (row col : Nat) (s : DecState)
    (h : s.globalFrameCol = ctx.frameX) :
    (∀ c, c < ctx.nComp →
      (wrapStep ctx row col s).pred c =
        s.out (s.predNext +
          (if c = 0 then 0 else ctx.groupSize - (ctx.nComp - c)))) ∧
    (wrapStep ctx row col s).predNext = row * ctx.pitchT + col ∧
    (wrapStep ctx row col s).globalFrameCol = 0 ∧
    (wrapStep ctx row col s).out = s.out ∧
    (wrapStep ctx row col s).pos = s.pos ∧
    (initState ctx).predNext = 0 := by
  refine ⟨fun c hc => ?_, ?_, ?_, ?_, ?_, rfl⟩ <;>
    simp only [wrapStep, h, if_pos rfl, if_true]
  rcases eq_or_ne c 0 with rfl | hc0
  · simp [hc]
  · simp [hc, hc0]

def ctxC1 : Cr2Ctx :=
  { nComp := 2, xsf := 1, ysf := 1, dimX := 4, dimY := 1, pitchT := 4,
    frameX := 4, frameY := 1, slicing := ⟨2, 2, 2⟩, initPreds := [100, 200],
    diffs := fun _ => 0 }

def stC1 : DecState :=
  { out := fun i => 10 + i, pred := fun _ => 0, predNext := 1,
    globalFrameCol := 4, pos := 7 }

/-- Witness for `c1_predictor_wrap` at a concrete wrapped state. -/
theorem c1_predictor_wrap_witness :
    (wrapStep ctxC1 0 2 stC1).pred 1 = 12 ∧
    (wrapStep ctxC1 0 2 stC1).predNext = 2 ∧
    (wrapStep ctxC1 0 2 stC1).globalFrameCol = 0 := by
  have h := c1_predictor_wrap ctxC1 0 2 stC1 rfl
  exact ⟨(h.1 1 (by decide)).trans (by decide), h.2.1, h.2.2.1⟩

/-- Claim C4: the predictors and stored samples are 16-bit: the sample written
by one inner-loop step and the new value of the component's predictor are both
the old predictor plus the decoded difference taken modulo `2 ^ 16`
(congruent to the exact sum and in `[0, 2 ^ 16)`), never clamped, and the
written pixel equals the accumulated predictor. -/
theorem c4_pred_wraps_mod_u16 (ctx : Cr2Ctx) (row col p : Nat) (s : DecState) :
    ((((decodeSampleStep ctx row col s p).out (row * ctx.pitchT + (col + p)) : Int)
        - ((s.pred (sampleComp ctx p) : Int) + ctx.diffs s.pos)) % 2 ^ 16 = 0) ∧
    (decodeSampleStep ctx row col s p).out (row * ctx.pitchT + (col + p)) < 2 ^ 16 ∧
    (decodeSampleStep ctx row col s p).pred (sampleComp ctx p) =
      (decodeSampleStep ctx row col s p).out (row * ctx.pitchT + (col + p)) := by
  have hout : (decodeSampleStep ctx row col s p).out (row * ctx.pitchT + (col + p)) =
      u16add (s.pred (sampleComp ctx p)) (ctx.diffs s.pos) := by
    simp [decodeSampleStep]
  have hpred : (decodeSampleStep ctx row col s p).pred (sampleComp ctx p) =
      u16add (s.pred (sampleComp ctx p)) (ctx.diffs s.pos) := by
    simp [decodeSampleStep]
  rw [hout, hpred]
  have h1 := Int.emod_nonneg ((s.pred (sampleComp ctx p) : Int) + ctx.diffs s.pos)
    (by norm_num : (65536 : Int) ≠ 0)
  have h2 := Int.emod_lt_of_pos ((s.pred (sampleComp ctx p) : Int) + ctx.diffs s.pos)
    (by norm_num : (0 : Int) < 65536)
  refine ⟨?_, ?_, rfl⟩ <;> simp only [u16add] <;> omega

/-- Claim C9: `RawImageCurveGuard` with `uncorrectedRawValues = false` installs
the curve with dither on construction and clears the table on destruction;
with `uncorrectedRawValues = true` it installs nothing on construction and
installs the curve without dither on destruction; and for any guarded body the
destructor action determines the final table slot on every exit path,
error propagation included, while the body's outcome is passed through. -/
theorem c9_curve_guard {ε α : Type} (curve : List Nat) (u : Bool)
    (body : TableSlot → TableSlot × Except ε α) (t0 : TableSlot) :
    (RawImageCurveGuard.construct curve u t0 =
      if u then t0 else some (curve, true)) ∧
    ((withCurveGuard curve u body t0).1 =
      if u then some (curve, false) else none) ∧
    ((withCurveGuard curve u body t0).2 =
      (body (RawImageCurveGuard.construct curve u t0)).2) := by
  refine ⟨rfl, ?_, rfl⟩
  simp [withCurveGuard, RawImageCurveGuard.destruct]

/-- Claim C10: for every buffer and every in-bounds coordinate `(x, y)` and
component `c`, reading through the cropped view at `(y, cpp·x + c)` yields the
same sample as reading the uncropped view at
`(y + crop_offset.y, cpp·(x + crop_offset.x) + c)`. -/
theorem c10_cropped_vs_uncropped (b : RawImageDataModel) (x y c : Nat)
    (_hx : x < b.dimX) (_hy : y < b.dimY) (_hc : c < b.cpp) :
    (RawImageData.getU16DataAsCroppedArray2DRef b).get y (b.cpp * x + c) =
      (RawImageData.getU16DataAsUncroppedArray2DRef b).get (y + b.mOffsetY)
        (b.cpp * (x + b.mOffsetX) + c) := by
  simp only [RawImageData.getU16DataAsCroppedArray2DRef,
    RawImageData.getU16DataAsUncroppedArray2DRef, CroppedArray2DRef.get,
    Array2DRef.get]
  congr 1
  ring

def bufC10 : RawImageDataModel :=
  { data := fun i => 100 + i, cpp := 1, uncroppedDimX := 6, uncroppedDimY := 6,
    pitchBytes := 12, mOffsetX := 2, mOffsetY := 1, dimX := 3, dimY := 4 }

/-- Witness for `c10_cropped_vs_uncropped` at a concrete buffer and pixel. -/
theorem c10_cropped_vs_uncropped_witness :
    (RawImageData.getU16DataAsCroppedArray2DRef bufC10).get 2 (1 * 1 + 0) =
      (RawImageData.getU16DataAsUncroppedArray2DRef bufC10).get (2 + 1)
        (1 * (1 + 2) + 0) :=
  c10_cropped_vs_uncropped bufC10 1 2 0 (by decide) (by decide) (by decide)

/-- The concrete input of scenario S3: format `(2,1,1)`, frame `4×1`, two
slices of width 2, initial predictors `[100, 200]`, all decoded differences
zero. -/
def baseC2 : Cr2Base :=
  { format := (2, 1, 1), dimX := 4, dimY := 1, pitchT := 4, frameX := 4,
    frameY := 1, slicing := ⟨2, 2, 2⟩, initPreds := [100, 200],
    diffs := fun _ => 0 }

/-- Claim C2: for format `(2,1,1)`, frame `4×1`, two slices of width 2,
initial predictors `[100, 200]` and an all-zero difference stream,
`decompress()` succeeds and writes exactly the raster `[[100, 200, 100, 200]]`. -/
theorem c2_s3_two_slices :
    (decompress baseC2).isOk = true ∧
    (decompress baseC2).toOption.map
      (fun s => (s.out 0, s.out 1, s.out 2, s.out 3)) =
      some (100, 200, 100, 200) :=
  ⟨rfl, rfl⟩

/-- Claim C5: the `Cr2Decompressor` constructor succeeds if and only if all of
its preconditions hold: `uint16` data with `cpp = 1`, `bpp = 2`, dimensions in
`(0, 19440] × (0, 5920]`, positive slice widths, subsampled exactly when not
CFA, a supported format tuple, one recipe per component, and full-decode
Huffman tables. -/
theorem c5_constructor_preconditions (mRaw : RawImageModel)
    (format : Nat × Nat × Nat) (slicing : Cr2Slicing)
    (rec : List PerComponentRecipe) :
    Cr2Decompressor.construct mRaw format slicing rec = .ok () ↔
      (mRaw.dataType = RawImageType.TYPE_USHORT16 ∧ mRaw.cpp = 1 ∧ mRaw.bpp = 2 ∧
       0 < mRaw.dimX ∧ mRaw.dimX ≤ 19440 ∧ 0 < mRaw.dimY ∧ mRaw.dimY ≤ 5920 ∧
       (∀ sliceId, sliceId < slicing.numSlices → 0 < slicing.widthOfSlice sliceId) ∧
       subSampledFormat format ≠ mRaw.isCFA ∧
       (format = (3, 2, 2) ∨ format = (3, 2, 1) ∨ format = (2, 1, 1) ∨
         format = (4, 1, 1)) ∧
       rec.length = format.1 ∧ (∀ r ∈ rec, r.fullDecode = true)) := by
  unfold Cr2Decompressor.construct
  split_ifs with h1 h2 h3 h4 h5 h6 h7 h8 <;>
    simp_all [List.all_eq_true, List.mem_range] <;> omega

/-- Witness for `c5_constructor_preconditions`: a concrete argument tuple
satisfying every precondition, hence accepted. -/
theorem c5_constructor_preconditions_witness :
    Cr2Decompressor.construct
      ⟨RawImageType.TYPE_USHORT16, 1, 2, 100, 100, true⟩ (2, 1, 1) ⟨2, 2, 2⟩
      [⟨true, 0⟩, ⟨true, 0⟩] = .ok () :=
  (c5_constructor_preconditions _ _ _ _).mpr (by decide)

/-- Claim C6: the constructor raises an error whenever the format's
subsampledness (`Xf ≠ 1 ∨ Yf ≠ 1`) equals `isCFA`, and otherwise never fails
with the subsampling error. -/
theorem c6_subsampled_vs_cfa (mRaw : RawImageModel) (format : Nat × Nat × Nat)
    (slicing : Cr2Slicing) (rec : List PerComponentRecipe) :
    (subSampledFormat format = mRaw.isCFA →
      ∃ e, Cr2Decompressor.construct mRaw format slicing rec = .error e) ∧
    (subSampledFormat format ≠ mRaw.isCFA →
      Cr2Decompressor.construct mRaw format slicing rec ≠ .error .subsampled) := by
  unfold Cr2Decompressor.construct
  constructor
  · intro h
    split_ifs <;> simp_all
  · intro h
    split_ifs <;> simp_all

/-- Witness for `c6_subsampled_vs_cfa`: a non-subsampled format on a non-CFA
buffer is rejected, and on a CFA buffer it passes the subsampling check. -/
theorem c6_subsampled_vs_cfa_witness :
    (∃ e, Cr2Decompressor.construct
      ⟨RawImageType.TYPE_USHORT16, 1, 2, 100, 100, false⟩ (2, 1, 1) ⟨2, 2, 2⟩
      [⟨true, 0⟩, ⟨true, 0⟩] = .error e) ∧
    Cr2Decompressor.construct
      ⟨RawImageType.TYPE_USHORT16, 1, 2, 100, 100, true⟩ (2, 1, 1) ⟨2, 2, 2⟩
      [⟨true, 0⟩, ⟨true, 0⟩] ≠ .error .subsampled := by
  refine ⟨(c6_subsampled_vs_cfa _ _ _ _).1 (by decide),
    (c6_subsampled_vs_cfa _ _ _ _).2 (by decide)⟩

/-- Claim C7: `decompressN_X_Y` raises an error — before consuming any
bit-stream data, so independently of the difference stream — whenever
`frame.y · slicing.total_width < cpp_eff · real_dim.area`; and when the
reverse inequality holds, the geometry check passes. -/
theorem c7_slice_geometry (ctx : Cr2Ctx) :
    (ctx.frameY * ctx.slicing.totalWidth <
        ctx.cpp * (ctx.realDimX * ctx.realDimY) →
      ∃ e, decompressN_X_Y ctx = .error e ∧
        ∀ d, decompressN_X_Y { ctx with diffs := d } = .error e) ∧
    (ctx.cpp * (ctx.realDimX * ctx.realDimY) ≤
        ctx.frameY * ctx.slicing.totalWidth →
      geomCheck ctx = .ok ()) := by
  constructor
  · intro h
    have hgeom : geomCheck ctx = .error .geometry := by
      simp [geomCheck, h]
    have hwd : ∀ (d : Nat → Int) w,
        widthCheck { ctx with diffs := d } w = widthCheck ctx w := fun _ _ => rfl
    have hgd : ∀ (d : Nat → Int),
        geomCheck { ctx with diffs := d } = geomCheck ctx := fun _ => rfl
    cases hw1 : widthCheck ctx ctx.slicing.sliceWidth with
    | error e =>
      refine ⟨e, ?_, fun d => ?_⟩ <;> simp [decompressN_X_Y, hwd, hw1]
    | ok u =>
      cases hw2 : widthCheck ctx ctx.slicing.lastSliceWidth with
      | error e =>
        refine ⟨e, ?_, fun d => ?_⟩ <;> simp [decompressN_X_Y, hwd, hw1, hw2]
      | ok v =>
        refine ⟨.geometry, ?_, fun d => ?_⟩ <;>
          simp [decompressN_X_Y, hwd, hgd, hw1, hw2, hgeom]
  · intro h
    simp [geomCheck, Nat.not_lt.mpr h]

/-- A context whose slice plan is too small for the image: the geometry
check must reject it. -/
def ctxC7 : Cr2Ctx :=
  { nComp := 2, xsf := 1, ysf := 1, dimX := 2, dimY := 1, pitchT := 2,
    frameX := 2, frameY := 1, slicing := ⟨1, 0, 0⟩, initPreds := [0, 0],
    diffs := fun _ => 0 }

/-- Witness for `c7_slice_geometry`: the undersized plan `ctxC7` errors out
regardless of the difference stream, and the well-sized plan of `baseC2`
passes the geometry check. -/
theorem c7_slice_geometry_witness :
    (∃ e, decompressN_X_Y ctxC7 = .error e ∧
      decompressN_X_Y { ctxC7 with diffs := fun _ => 5 } = .error e) ∧
    geomCheck (baseC2.ctx 2 1 1) = .ok () := by
  constructor
  · obtain ⟨e, he, hd⟩ := (c7_slice_geometry ctxC7).1 (by decide)
    exact ⟨e, he, hd _⟩
  · exact (c7_slice_geometry (baseC2.ctx 2 1 1)).2 (by decide)

/-- `n & 2047` masks the low 11 bits, i.e. reduces modulo `2 ^ 11`. -/
theorem land2047_eq_mod (n : Nat) : n &&& 2047 = n % 2048 := by
  have := Nat.and_pow_two_sub_one_eq_mod n 11
  norm_num at this
  exact this

/-- `n & 0xFFFF` masks the low 16 bits, i.e. reduces modulo `2 ^ 16`. -/
theorem land65535_eq_mod (n : Nat) : n &&& 65535 = n % 65536 := by
  have := Nat.and_pow_two_sub_one_eq_mod n 16
  norm_num at this
  exact this

/-- Claim C8: with a dithered lookup table installed,
`RawImageDataU16::setWithLookUp` writes
`out = base + ((delta · (r & 2047) + 1024) >> 12)` — `base` being the low 16
bits and `delta` the high 16 bits of the 32-bit table entry for `value` — and
updates the random state to `r' = 15700 · (r & 0xFFFF) + (r >> 16)`, all in
exact unsigned 32-bit arithmetic (no intermediate overflows; the hypothesis
`base + delta < 2 ^ 16` holds for the delta-to-next-entry tables that
`set_table` installs, so the `uint16_t` store does not truncate either). -/
theorem c8_setWithLookUp_dither (t : TableLookUp) (value r : Nat)
    (hd : t.dither = true)
    (hsum : t.tables.getD (2 * value) 0 + t.tables.getD (2 * value + 1) 0 < 2 ^ 16)
    (hr : r < 2 ^ 32) :
    RawImageDataU16.setWithLookUp (some t) value r =
      ((t.tables.getD (2 * value) 0 + 65536 * t.tables.getD (2 * value + 1) 0) % 2 ^ 16 +
        (((t.tables.getD (2 * value) 0 + 65536 * t.tables.getD (2 * value + 1) 0) / 2 ^ 16)
          * (r % 2048) + 1024) / 2 ^ 12,
       15700 * (r % 2 ^ 16) + r / 2 ^ 16) := by
  set b0 := t.tables.getD (2 * value) 0 with hb0
  set d0 := t.tables.getD (2 * value + 1) 0 with hd0
  simp only [RawImageDataU16.setWithLookUp, hd, if_true, land2047_eq_mod,
    land65535_eq_mod, Nat.shiftRight_eq_div_pow]
  have hlow : (b0 + 65536 * d0) % 2 ^ 16 = b0 := by norm_num; omega
  have hhigh : (b0 + 65536 * d0) / 2 ^ 16 = d0 := by norm_num; omega
  have hlow' : (b0 + 65536 * d0) % 65536 = b0 := by omega
  rw [hlow, hhigh, hlow']
  have hjit : (d0 * (r % 2048) + 1024) / 2 ^ 12 ≤ d0 := by
    have h1 : r % 2048 ≤ 2047 := by omega
    have h3 : d0 * (r % 2048) ≤ d0 * 2047 := Nat.mul_le_mul_left _ h1
    have h4 : (d0 * (r % 2048) + 1024) ≤ d0 * 2047 + 1024 := by omega
    have h5 : (d0 * 2047 + 1024) / 4096 < d0 + 1 := by
      rw [Nat.div_lt_iff_lt_mul (by norm_num)]
      omega
    have h6 := Nat.div_le_div_right (c := 4096) h4
    norm_num at h5 h6 ⊢
    omega
  have hrm : 15700 * (r % 2 ^ 16) + r / 2 ^ 16 < 4294967296 := by
    have : r % 2 ^ 16 < 2 ^ 16 := by omega
    have : r / 2 ^ 16 < 2 ^ 16 := by omega
    omega
  have hpix : (b0 + (d0 * (r % 2048) + 1024) / 2 ^ 12) < 65536 := by
    norm_num at hsum ⊢
    omega
  norm_num at hjit hpix hrm ⊢
  omega

/-- Witness for `c8_setWithLookUp_dither`: entry `(base, delta) = (100, 50)`,
`r = 3000` gives jitter `(50·952 + 1024) >> 12 = 11`, pixel `111`, and next
random state `15700 · 3000 = 47100000`. -/
theorem c8_setWithLookUp_dither_witness :
    RawImageDataU16.setWithLookUp (some ⟨[100, 50], true⟩) 0 3000 =
      (111, 47100000) :=
  (c8_setWithLookUp_dither ⟨[100, 50], true⟩ 0 3000 rfl (by decide)
    (by decide)).trans (by decide)

/-- Unrolling of the group-decoding fold: after `n` positions the predictors
follow the `groupPred` recurrence, `n` differences have been consumed, every
decoded position holds its component's freshly accumulated predictor, and no
other raster cell was touched. -/
theorem decodeGroupAux_spec (ctx : Cr2Ctx) (row col : Nat) (s : DecState) (n : Nat) :
    ((List.range n).foldl (decodeSampleStep ctx row col) s).pred =
      groupPred ctx s.pos s.pred n ∧
    ((List.range n).foldl (decodeSampleStep ctx row col) s).pos = s.pos + n ∧
    (∀ p, p < n →
      ((List.range n).foldl (decodeSampleStep ctx row col) s).out
          (row * ctx.pitchT + (col + p)) =
        u16add (groupPred ctx s.pos s.pred p (sampleComp ctx p))
          (ctx.diffs (s.pos + p))) ∧
    (∀ i, (∀ p, p < n → i ≠ row * ctx.pitchT + (col + p)) →
      ((List.range n).foldl (decodeSampleStep ctx row col) s).out i = s.out i) := by
  induction n with
  | zero => simp [groupPred]
  | succ n ih =>
    obtain ⟨ihpred, ihpos, ihout, ihframe⟩ := ih
    rw [List.range_succ, List.foldl_append]
    set t := (List.range n).foldl (decodeSampleStep ctx row col) s with ht
    simp only [List.foldl_cons, List.foldl_nil]
    refine ⟨?_, ?_, ?_, ?_⟩
    · funext c'
      simp only [decodeSampleStep, groupPred, ihpred, ihpos]
    · simp only [decodeSampleStep, ihpos]
      omega
    · intro p hp
      rcases Nat.lt_succ_iff_lt_or_eq.mp hp with hlt | rfl
      · have hne : row * ctx.pitchT + (col + p) ≠ row * ctx.pitchT + (col + n) := by
          omega
        simp only [decodeSampleStep, if_neg hne]
        exact ihout p hlt
      · simp only [decodeSampleStep, if_pos rfl, if_true, ihpred, ihpos]
    · intro i hi
      have hne : i ≠ row * ctx.pitchT + (col + n) := hi n (Nat.lt_succ_self n)
      simp only [decodeSampleStep, if_neg hne]
      exact ihframe i (fun p hp => hi p (Nat.lt_succ_of_lt hp))

/-- Claim C3: each decoded group writes `group_size` contiguous samples,
`group_size = N` when not subsampled and `2 + Xf·Yf` when subsampled; position
`p` uses component `0` for `p < pixels_per_group` and component
`p − pixels_per_group + 1` otherwise; every written sample equals the
component's predictor after adding the newly decoded difference; cells outside
the group are untouched, and the predictors end in the accumulated state. -/
theorem c3_group_samples (ctx : Cr2Ctx) (row col : Nat) (s : DecState) :
    ctx.groupSize = (if ctx.subSampled then 2 + ctx.xsf * ctx.ysf else ctx.nComp) ∧
    (∀ p, p < ctx.groupSize →
      sampleComp ctx p =
        (if p < ctx.pixelsPerGroup then 0 else p - ctx.pixelsPerGroup + 1) ∧
      (decodeGroup ctx row col s).out (row * ctx.pitchT + (col + p)) =
        u16add (groupPred ctx s.pos s.pred p (sampleComp ctx p))
          (ctx.diffs (s.pos + p))) ∧
    (∀ i, (∀ p, p < ctx.groupSize → i ≠ row * ctx.pitchT + (col + p)) →
      (decodeGroup ctx row col s).out i = s.out i) ∧
    (decodeGroup ctx row col s).pred = groupPred ctx s.pos s.pred ctx.groupSize := by
  obtain ⟨h1, h2, h3, h4⟩ := decodeGroupAux_spec ctx row col s ctx.groupSize
  exact ⟨rfl, fun p hp => ⟨rfl, h3 p hp⟩, h4, h1⟩

/-- A subsampled context (format `(3,2,1)`) for the `c3_group_samples`
witness: `pixels_per_group = 2`, `group_size = 4`. -/
def ctxC3 : Cr2Ctx :=
  { nComp := 3, xsf := 2, ysf := 1, dimX := 12, dimY := 1, pitchT := 12,
    frameX := 4, frameY := 1, slicing := ⟨1, 6, 6⟩, initPreds := [10, 20, 30],
    diffs := fun k => k }

/-- Witness for `c3_group_samples`: with predictors `[10, 20, 30]` and
differences `0, 1, 2, 3`, the group decodes to `10, 11, 22, 33` (two luma
samples then the two chroma samples) and leaves other cells at zero. -/
theorem c3_group_samples_witness :
    (decodeGroup ctxC3 0 0 (initState ctxC3)).out 2 = 22 ∧
    (decodeGroup ctxC3 0 0 (initState ctxC3)).out 7 = 0 := by
  have h := c3_group_samples ctxC3 0 0 (initState ctxC3)
  constructor
  · exact ((h.2.1 2 (by decide)).2).trans (by decide)
  · exact (h.2.2.1 7 (by decide)).trans (by decide)
